import Mathlib

/-!
# Recovery message reader

A shallow embedding of `src/ee/common/RecoveryProtoMessage.cpp`: the constructor
`RecoveryProtoMsg::RecoveryProtoMsg(ReferenceSerializeInput *in)` and the three
accessors `msgType()`, `tableId()` and `stream()`.

* The stream pointer is a `Ptr` (null or an address) into a `Heap` of stream
  objects, so that "the same cursor object" is equality of addresses and every
  effect on the cursor is an explicit heap update.
* `assert(c)` is embedded with its checking meaning (`NDEBUG` not defined): a
  false condition ends the run with a fault.
* A member call through a null pointer ends the run with `Fault.nullDereference`.
* `RECOVERY_MSG_TYPE_SCAN_COMPLETE` is declared in `common/types.h`; its value is
  a parameter of the constructor.
* `ReferenceSerializeInput` is declared in `common/serializeio.h`; its two
  primitives used here are modelled from the specification, with the byte order
  of `readInt` a field of the stream.
-/

set_option linter.dupNamespace false

namespace voltdb

/-! ## Data model -/

/-- One octet of the wire format. -/
abbrev Byte := Fin 256

/-- The enumeration `RecoveryMsgType`, carried as its 8-bit discriminator: the
constructor obtains it by `static_cast<RecoveryMsgType>` of the byte read. -/
abbrev RecoveryMsgType := Byte

/-- The type `CatalogId`: a 32-bit signed integer. -/
abbrev CatalogId := Int

/-- Byte order applied by the stream's `readInt`. -/
inductive ByteOrder where
  | littleEndian
  | bigEndian
  deriving DecidableEq, Repr

/-- Reinterpretation of an unsigned 32-bit pattern as a two's-complement `int32_t`. -/
def toInt32 (n : Nat) : Int :=
  if n % 4294967296 < 2147483648 then (n % 4294967296 : Nat)
  else ((n % 4294967296 : Nat) : Int) - 4294967296

/-- Modelled from the spec: the value `readInt` gives to four consecutive
bytes `b0 b1 b2 b3` (in stream order) under the stream's byte order; the
declaration of `ReferenceSerializeInput::readInt` is missing from the sources. -/
def decodeInt (order : ByteOrder) (b0 b1 b2 b3 : Byte) : CatalogId :=
  match order with
  | .littleEndian =>
      toInt32 (b0.val + 256 * b1.val + 65536 * b2.val + 16777216 * b3.val)
  | .bigEndian =>
      toInt32 (b3.val + 256 * b2.val + 65536 * b1.val + 16777216 * b0.val)

/-- The `k`-th base-256 digit of a natural number, as a byte. -/
def byteAt (u k : Nat) : Byte :=
  ⟨u / 256 ^ k % 256, Nat.mod_lt _ (by decide)⟩

/-- Modelled from the spec: the four-byte encoding of an `int32_t` in the
stream's `readInt` convention, as emitted by the companion sender (which is
missing from the sources). -/
def encodeInt (order : ByteOrder) (id : CatalogId) : List Byte :=
  let u : Nat := (id % 4294967296).toNat
  match order with
  | .littleEndian => [byteAt u 0, byteAt u 1, byteAt u 2, byteAt u 3]
  | .bigEndian => [byteAt u 3, byteAt u 2, byteAt u 1, byteAt u 0]

/-- Failure raised by the byte stream itself: a read of `requested` bytes when
only `available` bytes remain. -/
inductive StreamError where
  | shortRead (requested available : Nat)
  deriving DecidableEq, Repr

/-- Modelled from the spec: the byte-stream cursor `ReferenceSerializeInput`
(declared in `common/serializeio.h`, missing from the sources): a buffer, a
position in it, and the byte order of its `readInt`. -/
structure ReferenceSerializeInput where
  order : ByteOrder
  buffer : List Byte
  position : Nat
  deriving DecidableEq, Repr

/-- The bytes still readable from the cursor. -/
def ReferenceSerializeInput.remaining (s : ReferenceSerializeInput) : List Byte :=
  s.buffer.drop s.position

/-- Modelled from the spec: `readByte() -> uint8` consumes one byte and
advances the cursor; on an exhausted stream it fails with the stream's own
short-read error (the body of `readByte` is missing from the sources). -/
def ReferenceSerializeInput.readByte (s : ReferenceSerializeInput) :
    Except StreamError (Byte × ReferenceSerializeInput) :=
  match s.remaining with
  | b :: _ => .ok (b, { s with position := s.position + 1 })
  | [] => .error (.shortRead 1 0)

/-- Modelled from the spec: `readInt() -> int32` consumes four bytes and
advances the cursor; with fewer than four bytes left it fails with the
stream's own short-read error (the body of `readInt` is missing from the
sources). -/
def ReferenceSerializeInput.readInt (s : ReferenceSerializeInput) :
    Except StreamError (CatalogId × ReferenceSerializeInput) :=
  match s.remaining with
  | b0 :: b1 :: b2 :: b3 :: _ =>
      .ok (decodeInt s.order b0 b1 b2 b3, { s with position := s.position + 4 })
  | rest => .error (.shortRead 4 rest.length)

/-! ## Pointers and the heap of stream objects -/

/-- A `ReferenceSerializeInput *`: null, or the address of a stream object. -/
inductive Ptr where
  | null
  | addr (a : Nat)
  deriving DecidableEq, Repr

/-- The stream objects of the process, by address. -/
abbrev Heap := Nat → ReferenceSerializeInput

/-- Overwrite the object at address `a`. -/
def Heap.store (h : Heap) (a : Nat) (s : ReferenceSerializeInput) : Heap :=
  fun x => if x = a then s else h x

/-- The ways a run of the constructor ends without a reader. -/
inductive Fault where
  /-- a failure of the byte stream, passed on as it is -/
  | stream (e : StreamError)
  /-- a member call through a null pointer -/
  | nullDereference
  /-- failure of `assert(m_in)` -/
  | nullStream
  /-- failure of `assert(m_type != RECOVERY_MSG_TYPE_SCAN_COMPLETE)` -/
  | unexpectedSentinel
  deriving DecidableEq, Repr

/-- The call `p->readByte()`: the result and the heap it leaves. -/
def Ptr.readByte (p : Ptr) (h : Heap) : Except Fault Byte × Heap :=
  match p with
  | .null => (.error .nullDereference, h)
  | .addr a =>
      match (h a).readByte with
      | .error e => (.error (.stream e), h)
      | .ok (b, s) => (.ok b, h.store a s)

/-- The call `p->readInt()`: the result and the heap it leaves. -/
def Ptr.readInt (p : Ptr) (h : Heap) : Except Fault CatalogId × Heap :=
  match p with
  | .null => (.error .nullDereference, h)
  | .addr a =>
      match (h a).readInt with
      | .error e => (.error (.stream e), h)
      | .ok (i, s) => (.ok i, h.store a s)

/-! ## The reader -/

/-- The data members of `RecoveryProtoMsg`. -/
structure RecoveryProtoMsg where
  m_in : Ptr
  m_type : RecoveryMsgType
  m_tableId : CatalogId
  deriving DecidableEq, Repr

/-- The constructor `RecoveryProtoMsg::RecoveryProtoMsg(ReferenceSerializeInput *in)`.
The member initialisers run first, in the order `m_in`, `m_type`, `m_tableId`
(the class declaration, in `common/RecoveryProtoMessage.h`, is missing from the
sources; the specification gives the declaration order as type, then table id,
which is also the order of the initialiser list); the two assertions of the
body run after them. The outcome is a reader or a
fault, together with the heap at that point. -/
def RecoveryProtoMsg.RecoveryProtoMsg (RECOVERY_MSG_TYPE_SCAN_COMPLETE : RecoveryMsgType)
    (inp : Ptr) (h : Heap) : Except Fault voltdb.RecoveryProtoMsg × Heap :=
  -- m_in(in)
  let m_in := inp
  -- m_type(static_cast<RecoveryMsgType>(in->readByte()))
  match Ptr.readByte inp h with
  | (.error f, h1) => (.error f, h1)
  | (.ok b, h1) =>
      let m_type : RecoveryMsgType := b
      -- m_tableId(in->readInt())
      match Ptr.readInt inp h1 with
      | (.error f, h2) => (.error f, h2)
      | (.ok i, h2) =>
          let m_tableId : CatalogId := i
          -- assert(m_in);
          if m_in = Ptr.null then (.error .nullStream, h2)
          -- assert(m_type != RECOVERY_MSG_TYPE_SCAN_COMPLETE);
          else if m_type = RECOVERY_MSG_TYPE_SCAN_COMPLETE then (.error .unexpectedSentinel, h2)
          else (.ok { m_in := m_in, m_type := m_type, m_tableId := m_tableId }, h2)

/-- The member function `RecoveryProtoMsg::msgType()`: `return m_type;`. It is
not `const`, so it is embedded with the reader and the heap passed through. -/
def RecoveryProtoMsg.msgType (self : voltdb.RecoveryProtoMsg) (h : Heap) :
    RecoveryMsgType × voltdb.RecoveryProtoMsg × Heap :=
  (self.m_type, self, h)

/-- The member function `RecoveryProtoMsg::tableId()`: `return m_tableId;`. -/
def RecoveryProtoMsg.tableId (self : voltdb.RecoveryProtoMsg) (h : Heap) :
    CatalogId × voltdb.RecoveryProtoMsg × Heap :=
  (self.m_tableId, self, h)

/-- The member function `RecoveryProtoMsg::stream()`: `return m_in;`. -/
def RecoveryProtoMsg.stream (self : voltdb.RecoveryProtoMsg) (h : Heap) :
    Ptr × voltdb.RecoveryProtoMsg × Heap :=
  (self.m_in, self, h)

/-! ## Sequences of accessor calls -/

/-- The three accessors, as names of calls. -/
inductive Accessor where
  | msgType
  | tableId
  | stream
  deriving DecidableEq, Repr

/-- A value returned by an accessor. -/
inductive Value where
  | type (t : RecoveryMsgType)
  | id (i : CatalogId)
  | ptr (p : Ptr)
  deriving DecidableEq, Repr

/-- One accessor call on a reader, in a heap. -/
def Accessor.call (c : Accessor) (self : RecoveryProtoMsg) (h : Heap) :
    Value × RecoveryProtoMsg × Heap :=
  match c with
  | .msgType => let r := self.msgType h; (.type r.1, r.2)
  | .tableId => let r := self.tableId h; (.id r.1, r.2)
  | .stream => let r := self.stream h; (.ptr r.1, r.2)

/-- A sequence of accessor calls, each on the reader and heap the previous one
left; the values returned, in order, with the final reader and heap. -/
def callAll : List Accessor → RecoveryProtoMsg → Heap → List Value × RecoveryProtoMsg × Heap
  | [], self, h => ([], self, h)
  | c :: cs, self, h =>
      let r := c.call self h
      let rest := callAll cs r.2.1 r.2.2
      (r.1 :: rest.1, rest.2)

/-- A heap holding the stream `s` at every address. -/
def Heap.const (s : ReferenceSerializeInput) : Heap := fun _ => s

/-! ## Lemmas on the integer codec -/

theorem toInt32_of_emod (id : Int) (hlo : -2147483648 ≤ id) (hhi : id < 2147483648) :
    toInt32 (id % 4294967296).toNat = id := by
  unfold toInt32
  have h0 : 0 ≤ id % 4294967296 := Int.emod_nonneg _ (by decide)
  have h1 : id % 4294967296 < 4294967296 := Int.emod_lt_of_pos _ (by decide)
  have hc : (((id % 4294967296).toNat : Nat) : Int) = id % 4294967296 := Int.toNat_of_nonneg h0
  have hm : (id % 4294967296).toNat % 4294967296 = (id % 4294967296).toNat := by
    apply Nat.mod_eq_of_lt
    omega
  rw [hm]
  split <;> omega

theorem digits_sum (u : Nat) (hu : u < 4294967296) :
    (byteAt u 0).val + 256 * (byteAt u 1).val + 65536 * (byteAt u 2).val
      + 16777216 * (byteAt u 3).val = u := by
  simp only [byteAt]
  norm_num
  omega

theorem decodeInt_encodeInt (order : ByteOrder) (id : Int)
    (hlo : -2147483648 ≤ id) (hhi : id < 2147483648) :
    ∃ b0 b1 b2 b3, encodeInt order id = [b0, b1, b2, b3] ∧
      decodeInt order b0 b1 b2 b3 = id := by
  have h0 : 0 ≤ id % 4294967296 := Int.emod_nonneg _ (by decide)
  have h1 : id % 4294967296 < 4294967296 := Int.emod_lt_of_pos _ (by decide)
  have hu : (id % 4294967296).toNat < 4294967296 := by omega
  cases order with
  | littleEndian =>
      refine ⟨_, _, _, _, rfl, ?_⟩
      simp only [decodeInt]
      rw [digits_sum _ hu]
      exact toInt32_of_emod id hlo hhi
  | bigEndian =>
      refine ⟨_, _, _, _, rfl, ?_⟩
      simp only [decodeInt]
      rw [digits_sum _ hu]
      exact toInt32_of_emod id hlo hhi

/-! ## Lemmas on the heap and the stream primitives -/

theorem Heap.store_same (h : Heap) (a : Nat) (s : ReferenceSerializeInput) :
    (h.store a s) a = s := by
  simp [Heap.store]

theorem Heap.store_other (h : Heap) (a x : Nat) (s : ReferenceSerializeInput) (hx : x ≠ a) :
    (h.store a s) x = h x := by
  simp [Heap.store, hx]

theorem Heap.store_store (h : Heap) (a : Nat) (s t : ReferenceSerializeInput) :
    (h.store a s).store a t = h.store a t := by
  funext x
  by_cases hx : x = a <;> simp [Heap.store, hx]

theorem remaining_advance (s : ReferenceSerializeInput) (k : Nat) :
    ({ s with position := s.position + k } : ReferenceSerializeInput).remaining
      = s.remaining.drop k := by
  simp [ReferenceSerializeInput.remaining, List.drop_drop, Nat.add_comm]

theorem readByte_cons (s : ReferenceSerializeInput) (t : Byte) (rest : List Byte)
    (hs : s.remaining = t :: rest) :
    s.readByte = .ok (t, { s with position := s.position + 1 }) := by
  simp [ReferenceSerializeInput.readByte, hs]

theorem readByte_nil (s : ReferenceSerializeInput) (hs : s.remaining = []) :
    s.readByte = .error (.shortRead 1 0) := by
  simp [ReferenceSerializeInput.readByte, hs]

theorem readInt_four (s : ReferenceSerializeInput) (b0 b1 b2 b3 : Byte) (rest : List Byte)
    (hs : s.remaining = b0 :: b1 :: b2 :: b3 :: rest) :
    s.readInt = .ok (decodeInt s.order b0 b1 b2 b3, { s with position := s.position + 4 }) := by
  simp [ReferenceSerializeInput.readInt, hs]

theorem readInt_short (s : ReferenceSerializeInput) (hs : s.remaining.length < 4) :
    s.readInt = .error (.shortRead 4 s.remaining.length) := by
  unfold ReferenceSerializeInput.readInt
  split
  · next b0 b1 b2 b3 rest heq =>
      rw [heq] at hs
      simp at hs
      omega
  · rfl

/-! ## The constructor, case by case -/

/-- A null pointer: the first member call faults, before either assertion. -/
theorem ctor_null (sc : RecoveryMsgType) (h : Heap) :
    RecoveryProtoMsg.RecoveryProtoMsg sc .null h = (.error .nullDereference, h) := by
  rfl

/-- An exhausted stream: `readByte` fails, nothing is consumed. -/
theorem ctor_empty (sc : RecoveryMsgType) (a : Nat) (h : Heap)
    (hs : (h a).remaining = []) :
    RecoveryProtoMsg.RecoveryProtoMsg sc (.addr a) h
      = (.error (.stream (.shortRead 1 0)), h) := by
  simp [RecoveryProtoMsg.RecoveryProtoMsg, Ptr.readByte, readByte_nil _ hs]

/-- One to four bytes left: `readByte` succeeds and `readInt` fails. -/
theorem ctor_short (sc : RecoveryMsgType) (a : Nat) (h : Heap) (t : Byte) (rest : List Byte)
    (hs : (h a).remaining = t :: rest) (hlen : rest.length < 4) :
    RecoveryProtoMsg.RecoveryProtoMsg sc (.addr a) h
      = (.error (.stream (.shortRead 4 rest.length)),
          h.store a { h a with position := (h a).position + 1 }) := by
  have hrem : ({ h a with position := (h a).position + 1 } :
      ReferenceSerializeInput).remaining = rest := by
    rw [remaining_advance, hs]; rfl
  have hint := readInt_short { h a with position := (h a).position + 1 } (by rw [hrem]; exact hlen)
  rw [hrem] at hint
  simp [RecoveryProtoMsg.RecoveryProtoMsg, Ptr.readByte, Ptr.readInt, readByte_cons _ _ _ hs,
    Heap.store_same, hint]

/-- At least five bytes left: both reads succeed, the cursor moves by five, and
the sentinel assertion decides the outcome. -/
theorem ctor_header (sc : RecoveryMsgType) (a : Nat) (h : Heap) (t b0 b1 b2 b3 : Byte)
    (rest : List Byte) (hs : (h a).remaining = t :: b0 :: b1 :: b2 :: b3 :: rest) :
    RecoveryProtoMsg.RecoveryProtoMsg sc (.addr a) h
      = (if t = sc then .error .unexpectedSentinel
          else .ok { m_in := .addr a, m_type := t,
                     m_tableId := decodeInt (h a).order b0 b1 b2 b3 },
          h.store a { h a with position := (h a).position + 5 }) := by
  have hrem : ({ h a with position := (h a).position + 1 } :
      ReferenceSerializeInput).remaining = b0 :: b1 :: b2 :: b3 :: rest := by
    rw [remaining_advance, hs]; rfl
  have hint := readInt_four _ _ _ _ _ _ hrem
  simp only [RecoveryProtoMsg.RecoveryProtoMsg, Ptr.readByte, Ptr.readInt,
    readByte_cons _ _ _ hs, Heap.store_same, hint, Heap.store_store]
  by_cases htsc : t = sc <;> simp [htsc]

/-- What is left in a stream, by how much of a header it can still give. -/
theorem remaining_cases (l : List Byte) :
    l = [] ∨ (∃ t rest, l = t :: rest ∧ rest.length < 4) ∨
      ∃ t b0 b1 b2 b3 rest, l = t :: b0 :: b1 :: b2 :: b3 :: rest := by
  match l with
  | [] => exact Or.inl rfl
  | [t] => exact Or.inr (Or.inl ⟨t, [], rfl, by decide⟩)
  | [t, b0] => exact Or.inr (Or.inl ⟨t, [b0], rfl, by simp⟩)
  | [t, b0, b1] => exact Or.inr (Or.inl ⟨t, [b0, b1], rfl, by simp⟩)
  | [t, b0, b1, b2] => exact Or.inr (Or.inl ⟨t, [b0, b1, b2], rfl, by simp⟩)
  | t :: b0 :: b1 :: b2 :: b3 :: rest => exact Or.inr (Or.inr ⟨t, b0, b1, b2, b3, rest, rfl⟩)

/-- A stream with at least five bytes left starts with a whole header. -/
theorem header_of_five_le (l : List Byte) (h5 : 5 ≤ l.length) :
    ∃ t b0 b1 b2 b3 rest, l = t :: b0 :: b1 :: b2 :: b3 :: rest := by
  rcases remaining_cases l with h | ⟨t, rest, h, hlen⟩ | h
  · rw [h] at h5; simp at h5
  · rw [h] at h5; simp at h5; omega
  · exact h

/-- Every run that ends with a reader read a whole header whose type byte is
not the sentinel, through a non-null pointer. -/
theorem ctor_ok_inv (sc : RecoveryMsgType) (inp : Ptr) (h : Heap) (r : RecoveryProtoMsg)
    (hok : (RecoveryProtoMsg.RecoveryProtoMsg sc inp h).1 = .ok r) :
    ∃ a t b0 b1 b2 b3 rest, inp = .addr a ∧
      (h a).remaining = t :: b0 :: b1 :: b2 :: b3 :: rest ∧ t ≠ sc ∧
      r = { m_in := .addr a, m_type := t, m_tableId := decodeInt (h a).order b0 b1 b2 b3 } ∧
      (RecoveryProtoMsg.RecoveryProtoMsg sc inp h).2
        = h.store a { h a with position := (h a).position + 5 } := by
  cases inp with
  | null => rw [ctor_null] at hok; cases hok
  | addr a =>
      rcases remaining_cases (h a).remaining with hs | ⟨t, rest, hs, hlen⟩ |
        ⟨t, b0, b1, b2, b3, rest, hs⟩
      · rw [ctor_empty sc a h hs] at hok; cases hok
      · rw [ctor_short sc a h t rest hs hlen] at hok; cases hok
      · rw [ctor_header sc a h t b0 b1 b2 b3 rest hs] at hok ⊢
        by_cases htsc : t = sc
        · simp [htsc] at hok
        · simp only [htsc, if_false] at hok
          injection hok with hr
          exact ⟨a, t, b0, b1, b2, b3, rest, rfl, hs, htsc, hr.symm, rfl⟩

/-! ## The claims -/

/-- C1: for every type byte `t` other than the `SCAN_COMPLETE` discriminator and
every 32-bit signed `id`, the constructor run on a non-null stream whose next
five bytes are `t` followed by the four-byte encoding of `id` in the stream's own
`readInt` convention ends with a reader, and `msgType()` of it is `t` and
`tableId()` of it is `id`: the type comes from offset 0 and the table id from
offsets 1 to 4. -/
theorem C1_header_fields (sc t : RecoveryMsgType) (id : CatalogId) (a : Nat) (h : Heap)
    (payload : List Byte) (ht : t ≠ sc)
    (hlo : -2147483648 ≤ id) (hhi : id < 2147483648)
    (hs : (h a).remaining = t :: (encodeInt (h a).order id ++ payload)) :
    ∃ r, (RecoveryProtoMsg.RecoveryProtoMsg sc (.addr a) h).1 = .ok r ∧
      (r.msgType (RecoveryProtoMsg.RecoveryProtoMsg sc (.addr a) h).2).1 = t ∧
      (r.tableId (RecoveryProtoMsg.RecoveryProtoMsg sc (.addr a) h).2).1 = id := by
  obtain ⟨b0, b1, b2, b3, henc, hdec⟩ := decodeInt_encodeInt (h a).order id hlo hhi
  rw [henc] at hs
  have hc := ctor_header sc a h t b0 b1 b2 b3 payload hs
  rw [hc]
  simp only [ht, if_false]
  exact ⟨_, rfl, rfl, hdec⟩

/-- C1 at a concrete frame: sentinel 1, type 2, table id -2 in a big-endian
stream, followed by one payload byte. -/
theorem C1_header_fields_witness :
    (2 : RecoveryMsgType) ≠ 1 ∧
    (∃ r, (RecoveryProtoMsg.RecoveryProtoMsg 1 (.addr 0)
        (Heap.const ⟨.bigEndian, [2, 0xFF, 0xFF, 0xFF, 0xFE, 0xAA], 0⟩)).1 = .ok r ∧
      (r.msgType (RecoveryProtoMsg.RecoveryProtoMsg 1 (.addr 0)
        (Heap.const ⟨.bigEndian, [2, 0xFF, 0xFF, 0xFF, 0xFE, 0xAA], 0⟩)).2).1 = 2 ∧
      (r.tableId (RecoveryProtoMsg.RecoveryProtoMsg 1 (.addr 0)
        (Heap.const ⟨.bigEndian, [2, 0xFF, 0xFF, 0xFF, 0xFE, 0xAA], 0⟩)).2).1 = -2) :=
  ⟨by decide,
    C1_header_fields 1 2 (-2) 0 (Heap.const ⟨.bigEndian, [2, 0xFF, 0xFF, 0xFF, 0xFE, 0xAA], 0⟩)
      [0xAA] (by decide) (by decide) (by decide) (by decide)⟩

/-- C2: for every stream with at least five bytes left whose first byte is not
the `SCAN_COMPLETE` discriminator, the constructor ends with a reader, the
cursor has moved by exactly five, the buffer is unchanged, what is left to read
is the input from offset 5 on, and no other stream object is touched. -/
theorem C2_cursor_advances_five (sc : RecoveryMsgType) (a : Nat) (h : Heap)
    (h5 : 5 ≤ (h a).remaining.length) (hfirst : (h a).remaining.head? ≠ some sc) :
    (∃ r, (RecoveryProtoMsg.RecoveryProtoMsg sc (.addr a) h).1 = .ok r) ∧
    ((RecoveryProtoMsg.RecoveryProtoMsg sc (.addr a) h).2 a).position = (h a).position + 5 ∧
    ((RecoveryProtoMsg.RecoveryProtoMsg sc (.addr a) h).2 a).buffer = (h a).buffer ∧
    ((RecoveryProtoMsg.RecoveryProtoMsg sc (.addr a) h).2 a).order = (h a).order ∧
    ((RecoveryProtoMsg.RecoveryProtoMsg sc (.addr a) h).2 a).remaining
      = (h a).remaining.drop 5 ∧
    ∀ x, x ≠ a → (RecoveryProtoMsg.RecoveryProtoMsg sc (.addr a) h).2 x = h x := by
  obtain ⟨t, b0, b1, b2, b3, rest, hs⟩ := header_of_five_le _ h5
  have htsc : t ≠ sc := by
    intro heq
    apply hfirst
    rw [hs, heq]; rfl
  rw [ctor_header sc a h t b0 b1 b2 b3 rest hs]
  rw [if_neg htsc]
  refine ⟨⟨_, rfl⟩, ?_, ?_, ?_, ?_, ?_⟩
  · simp only [Heap.store_same]
  · simp only [Heap.store_same]
  · simp only [Heap.store_same]
  · simp only [Heap.store_same]
    exact remaining_advance (h a) 5
  · intro x hx
    exact Heap.store_other h a x _ hx

/-- C2 on the frame `[0x02,0x00,0x00,0x00,0x07,0xAA,0xBB,0xCC]` with sentinel 1:
the position is 5 and `[0xAA,0xBB,0xCC]` is left. -/
theorem C2_cursor_advances_five_witness :
    ((RecoveryProtoMsg.RecoveryProtoMsg 1 (.addr 0) (Heap.const
        ⟨.littleEndian, [0x02, 0x00, 0x00, 0x00, 0x07, 0xAA, 0xBB, 0xCC], 0⟩)).2 0).position
      = 5 ∧
    ((RecoveryProtoMsg.RecoveryProtoMsg 1 (.addr 0) (Heap.const
        ⟨.littleEndian, [0x02, 0x00, 0x00, 0x00, 0x07, 0xAA, 0xBB, 0xCC], 0⟩)).2 0).remaining
      = [0xAA, 0xBB, 0xCC] :=
  have w := C2_cursor_advances_five 1 0 (Heap.const
    ⟨.littleEndian, [0x02, 0x00, 0x00, 0x00, 0x07, 0xAA, 0xBB, 0xCC], 0⟩)
    (by decide) (by decide)
  ⟨w.2.1, w.2.2.2.2.1⟩

/-- C3: for every stream whose first byte is the `SCAN_COMPLETE` discriminator,
whatever follows it and however much, the constructor ends with a fault and
never with a reader: the sentinel assertion fails when a whole header is there,
and the read of the table id fails in the stream when it is not. -/
theorem C3_sentinel_is_fatal (sc : RecoveryMsgType) (a : Nat) (h : Heap)
    (hfirst : (h a).remaining.head? = some sc) :
    (∃ f, (RecoveryProtoMsg.RecoveryProtoMsg sc (.addr a) h).1 = .error f) ∧
    (5 ≤ (h a).remaining.length →
      (RecoveryProtoMsg.RecoveryProtoMsg sc (.addr a) h).1 = .error .unexpectedSentinel) ∧
    ((h a).remaining.length < 5 →
      (RecoveryProtoMsg.RecoveryProtoMsg sc (.addr a) h).1
        = .error (.stream (.shortRead 4 ((h a).remaining.length - 1)))) := by
  rcases remaining_cases (h a).remaining with hs | ⟨t, rest, hs, hlen⟩ |
    ⟨t, b0, b1, b2, b3, rest, hs⟩
  · rw [hs] at hfirst; cases hfirst
  · rw [ctor_short sc a h t rest hs hlen, hs]
    refine ⟨⟨_, rfl⟩, ?_, ?_⟩
    · intro h5
      simp at h5
      omega
    · intro _
      simp
  · have hts : t = sc := by
      rw [hs] at hfirst
      simpa using hfirst
    rw [ctor_header sc a h t b0 b1 b2 b3 rest hs, if_pos hts, hs]
    refine ⟨⟨_, rfl⟩, ?_, ?_⟩
    · intro _
      rfl
    · intro hlt
      simp at hlt
      omega

/-- C3 on two buffers that start with the sentinel 1: a whole header, and the
sentinel byte alone. -/
theorem C3_sentinel_is_fatal_witness :
    (RecoveryProtoMsg.RecoveryProtoMsg 1 (.addr 0)
        (Heap.const ⟨.littleEndian, [1, 0, 0, 0, 0x2A, 0xAA], 0⟩)).1
      = .error .unexpectedSentinel ∧
    (∃ f, (RecoveryProtoMsg.RecoveryProtoMsg 1 (.addr 0)
        (Heap.const ⟨.littleEndian, [1], 0⟩)).1 = .error f) :=
  ⟨(C3_sentinel_is_fatal 1 0 (Heap.const ⟨.littleEndian, [1, 0, 0, 0, 0x2A, 0xAA], 0⟩)
      (by decide)).2.1 (by decide),
    (C3_sentinel_is_fatal 1 0 (Heap.const ⟨.littleEndian, [1], 0⟩) (by decide)).1⟩

/-- C4 (invariant I2): whatever the pointer and the heap, when the constructor
ends with a reader, `msgType()` of that reader is not `SCAN_COMPLETE`; the
pointer is then the address of a stream whose first byte left was that type,
so a byte other than the sentinel. Hence no frame whose type byte is the
sentinel ever gives a reader, at any address of any heap. -/
theorem C4_type_never_sentinel (sc : RecoveryMsgType) (inp : Ptr) (h : Heap)
    (r : RecoveryProtoMsg)
    (hok : (RecoveryProtoMsg.RecoveryProtoMsg sc inp h).1 = .ok r) :
    (r.msgType (RecoveryProtoMsg.RecoveryProtoMsg sc inp h).2).1 ≠ sc ∧
    (∃ a, inp = .addr a ∧
      (h a).remaining.head?
        = some (r.msgType (RecoveryProtoMsg.RecoveryProtoMsg sc inp h).2).1 ∧
      (h a).remaining.head? ≠ some sc) ∧
    (∀ (a : Nat) (g : Heap), (g a).remaining.head? = some sc →
      ∀ q, (RecoveryProtoMsg.RecoveryProtoMsg sc (.addr a) g).1 ≠ .ok q) := by
  obtain ⟨a, t, b0, b1, b2, b3, rest, hinp, hs, htsc, hr, _⟩ := ctor_ok_inv sc inp h r hok
  refine ⟨?_, ⟨a, hinp, ?_, ?_⟩, ?_⟩
  · rw [hr]
    exact htsc
  · rw [hr, hs]
    rfl
  · rw [hs]
    intro hc
    apply htsc
    simpa using hc
  · intro x g hg q hq
    obtain ⟨y, u, c0, c1, c2, c3, tl, hp, hu, husc, _, _⟩ := ctor_ok_inv sc (.addr x) g q hq
    cases hp
    rw [hu] at hg
    apply husc
    simpa using hg

/-- C4 on a frame of type 2 with sentinel 1: the reader's type is 2, the first
byte of the frame, and the frame `[1, 0, 0, 0, 7]` gives no reader. -/
theorem C4_type_never_sentinel_witness :
    (RecoveryProtoMsg.RecoveryProtoMsg 1 (.addr 0)
        (Heap.const ⟨.bigEndian, [2, 0, 0, 0, 7], 0⟩)).1 = .ok ⟨.addr 0, 2, 7⟩ ∧
    ((⟨.addr 0, 2, 7⟩ : RecoveryProtoMsg).msgType (RecoveryProtoMsg.RecoveryProtoMsg 1 (.addr 0)
        (Heap.const ⟨.bigEndian, [2, 0, 0, 0, 7], 0⟩)).2).1 ≠ 1 ∧
    (∀ q, (RecoveryProtoMsg.RecoveryProtoMsg 1 (.addr 0)
        (Heap.const ⟨.bigEndian, [1, 0, 0, 0, 7], 0⟩)).1 ≠ .ok q) :=
  ⟨rfl,
    (C4_type_never_sentinel 1 (.addr 0) (Heap.const ⟨.bigEndian, [2, 0, 0, 0, 7], 0⟩)
      ⟨.addr 0, 2, 7⟩ rfl).1,
    (C4_type_never_sentinel 1 (.addr 0) (Heap.const ⟨.bigEndian, [2, 0, 0, 0, 7], 0⟩)
      ⟨.addr 0, 2, 7⟩ rfl).2.2 0 (Heap.const ⟨.bigEndian, [1, 0, 0, 0, 7], 0⟩) (by decide)⟩

/-- C5, as the code runs it: with a null pointer the member initialiser
`m_type(... in->readByte())` calls through the null pointer before the body's
`assert(m_in)` is reached, so the run ends in the null dereference and not in
the null-stream check, with the heap as it was. -/
theorem C5_null_read_precedes_check (sc : RecoveryMsgType) (h : Heap) :
    (Ptr.readByte .null h).1 = .error .nullDereference ∧
    (RecoveryProtoMsg.RecoveryProtoMsg sc .null h).1 = .error .nullDereference ∧
    (RecoveryProtoMsg.RecoveryProtoMsg sc .null h).1 ≠ .error .nullStream ∧
    (RecoveryProtoMsg.RecoveryProtoMsg sc .null h).2 = h := by
  refine ⟨rfl, rfl, ?_, rfl⟩
  rw [ctor_null]
  intro hc
  cases hc

/-- C6: for every reader the constructor ends with, `stream()` returns the very
pointer given to the constructor and changes nothing; the object it points to
is the given stream moved by the five header bytes, every other object is as it
was, and the next read through the returned pointer gives the byte at offset 5
of the original input. -/
theorem C6_stream_is_the_given_cursor (sc : RecoveryMsgType) (inp : Ptr) (h : Heap)
    (r : RecoveryProtoMsg)
    (hok : (RecoveryProtoMsg.RecoveryProtoMsg sc inp h).1 = .ok r) :
    (r.stream (RecoveryProtoMsg.RecoveryProtoMsg sc inp h).2).1 = inp ∧
    (r.stream (RecoveryProtoMsg.RecoveryProtoMsg sc inp h).2).2
      = (r, (RecoveryProtoMsg.RecoveryProtoMsg sc inp h).2) ∧
    ∃ a, inp = .addr a ∧
      (RecoveryProtoMsg.RecoveryProtoMsg sc inp h).2 a
        = { h a with position := (h a).position + 5 } ∧
      ((RecoveryProtoMsg.RecoveryProtoMsg sc inp h).2 a).remaining
        = (h a).remaining.drop 5 ∧
      (∀ x, x ≠ a → (RecoveryProtoMsg.RecoveryProtoMsg sc inp h).2 x = h x) ∧
      (Ptr.readByte (r.stream (RecoveryProtoMsg.RecoveryProtoMsg sc inp h).2).1
          (RecoveryProtoMsg.RecoveryProtoMsg sc inp h).2).1.toOption
        = ((h a).remaining.drop 5).head? := by
  obtain ⟨a, t, b0, b1, b2, b3, rest, hinp, hs, _, hr, hheap⟩ := ctor_ok_inv sc inp h r hok
  have hobj : (RecoveryProtoMsg.RecoveryProtoMsg sc inp h).2 a
      = { h a with position := (h a).position + 5 } := by
    rw [hheap, Heap.store_same]
  have hrem : ((RecoveryProtoMsg.RecoveryProtoMsg sc inp h).2 a).remaining
      = (h a).remaining.drop 5 := by
    rw [hobj]
    exact remaining_advance (h a) 5
  refine ⟨?_, rfl, a, hinp, hobj, hrem, ?_, ?_⟩
  · rw [hr, hinp]
    rfl
  · intro x hx
    rw [hheap]
    exact Heap.store_other h a x _ hx
  · have hp : (r.stream (RecoveryProtoMsg.RecoveryProtoMsg sc inp h).2).1 = .addr a := by
      rw [hr]
      rfl
    rw [hp, ← hrem]
    simp only [Ptr.readByte, ReferenceSerializeInput.readByte]
    cases ((RecoveryProtoMsg.RecoveryProtoMsg sc inp h).2 a).remaining with
    | nil => rfl
    | cons b bs => rfl

/-- C6 on the frame `[0x02,0x00,0x00,0x00,0x07,0xAA,0xBB,0xCC]` at address 3,
with sentinel 1: `stream()` is the pointer to address 3 and the next byte read
through it is `0xAA`. -/
theorem C6_stream_is_the_given_cursor_witness :
    ((⟨.addr 3, 2, 7⟩ : RecoveryProtoMsg).stream (RecoveryProtoMsg.RecoveryProtoMsg 1 (.addr 3)
        (Heap.const ⟨.bigEndian, [0x02, 0x00, 0x00, 0x00, 0x07, 0xAA, 0xBB, 0xCC], 0⟩)).2).1
      = .addr 3 ∧
    (Ptr.readByte (.addr 3) (RecoveryProtoMsg.RecoveryProtoMsg 1 (.addr 3)
        (Heap.const ⟨.bigEndian, [0x02, 0x00, 0x00, 0x00, 0x07, 0xAA, 0xBB, 0xCC], 0⟩)).2).1
      = .ok 0xAA :=
  ⟨(C6_stream_is_the_given_cursor 1 (.addr 3)
      (Heap.const ⟨.bigEndian, [0x02, 0x00, 0x00, 0x00, 0x07, 0xAA, 0xBB, 0xCC], 0⟩)
      ⟨.addr 3, 2, 7⟩ rfl).1, rfl⟩

/-- C7: the three accessors are pure. Any sequence of calls to `msgType()`,
`tableId()` and `stream()`, in any order and of any length, returns for each
call the value that call returns on the initial reader, and leaves both the
reader and the heap (so every cursor and every byte of every stream) exactly as
they were; this holds of every reader, so of every constructed one. -/
theorem C7_accessors_are_pure (cs : List Accessor) (r : RecoveryProtoMsg) (h : Heap) :
    callAll cs r h = (cs.map (fun c => (c.call r h).1), r, h) ∧
    (∀ c : Accessor, (c.call r h).2 = (r, h)) ∧
    (r.msgType h).1 = r.m_type ∧ (r.tableId h).1 = r.m_tableId ∧
    (r.stream h).1 = r.m_in := by
  have hcall : ∀ c : Accessor, (c.call r h).2 = (r, h) := by
    intro c
    cases c <;> rfl
  refine ⟨?_, hcall, rfl, rfl, rfl⟩
  induction cs with
  | nil => rfl
  | cons c cs ih =>
      have h1 : (c.call r h).2.1 = r := by rw [hcall c]
      have h2 : (c.call r h).2.2 = h := by rw [hcall c]
      simp only [callAll, List.map_cons, h1, h2, ih]

/-- C8, as stated, fails: on `[0x01,0x00,0x00,0x00,0x2A]` read by a
little-endian stream the table id is `0x2A000000 = 704643072` (shown with
sentinel 0), and there is no value of the sentinel for which construction ends
with a reader whose `tableId()` is 42. -/
theorem C8_little_endian_counterexample :
    (RecoveryProtoMsg.RecoveryProtoMsg 0 (.addr 0)
        (Heap.const ⟨.littleEndian, [0x01, 0x00, 0x00, 0x00, 0x2A], 0⟩)).1
      = .ok ⟨.addr 0, 1, 704643072⟩ ∧
    ¬ ∃ sc r, (RecoveryProtoMsg.RecoveryProtoMsg sc (.addr 0)
        (Heap.const ⟨.littleEndian, [0x01, 0x00, 0x00, 0x00, 0x2A], 0⟩)).1 = .ok r ∧
      (r.tableId (RecoveryProtoMsg.RecoveryProtoMsg sc (.addr 0)
        (Heap.const ⟨.littleEndian, [0x01, 0x00, 0x00, 0x00, 0x2A], 0⟩)).2).1 = 42 := by
  refine ⟨rfl, ?_⟩
  rintro ⟨sc, r, hok, hid⟩
  obtain ⟨a, t, b0, b1, b2, b3, rest, hinp, hs, _, hr, _⟩ := ctor_ok_inv _ _ _ _ hok
  cases hinp
  have hs2 : (Heap.const ⟨.littleEndian, [0x01, 0x00, 0x00, 0x00, 0x2A], 0⟩ 0).remaining
      = [0x01, 0x00, 0x00, 0x00, 0x2A] := rfl
  rw [hs2] at hs
  injection hs with _ hs
  injection hs with e0 hs
  injection hs with e1 hs
  injection hs with e2 hs
  injection hs with e3 _
  rw [hr, ← e0, ← e1, ← e2, ← e3] at hid
  have hv : decodeInt .littleEndian 0x00 0x00 0x00 0x2A = (42 : Int) := hid
  revert hv
  decide

/-- C8, amended: on the five bytes `[0x01,0x00,0x00,0x00,0x2A]`, with 1 not the
sentinel, construction ends with a reader, `msgType()` is 1, nothing is left in
the stream, and `tableId()` is 704643072 when `readInt` is little-endian and 42
when it is big-endian; likewise on `[0x02,0x00,0x00,0x00,0x07]`, with 2 not the
sentinel, `tableId()` is 117440512 when little-endian and 7 when big-endian. -/
theorem C8_scenarios_by_byte_order (sc : RecoveryMsgType) (a : Nat) (h g : Heap)
    (hs : (h a).remaining = [0x01, 0x00, 0x00, 0x00, 0x2A])
    (gs : (g a).remaining = [0x02, 0x00, 0x00, 0x00, 0x07]) :
    (sc ≠ 1 →
      ∃ r, (RecoveryProtoMsg.RecoveryProtoMsg sc (.addr a) h).1 = .ok r ∧
        (r.msgType (RecoveryProtoMsg.RecoveryProtoMsg sc (.addr a) h).2).1 = 1 ∧
        (r.tableId (RecoveryProtoMsg.RecoveryProtoMsg sc (.addr a) h).2).1
          = (match (h a).order with
              | .littleEndian => 704643072
              | .bigEndian => 42) ∧
        ((RecoveryProtoMsg.RecoveryProtoMsg sc (.addr a) h).2 a).remaining = []) ∧
    (sc ≠ 2 →
      ∃ r, (RecoveryProtoMsg.RecoveryProtoMsg sc (.addr a) g).1 = .ok r ∧
        (r.msgType (RecoveryProtoMsg.RecoveryProtoMsg sc (.addr a) g).2).1 = 2 ∧
        (r.tableId (RecoveryProtoMsg.RecoveryProtoMsg sc (.addr a) g).2).1
          = (match (g a).order with
              | .littleEndian => 117440512
              | .bigEndian => 7) ∧
        ((RecoveryProtoMsg.RecoveryProtoMsg sc (.addr a) g).2 a).remaining = []) := by
  constructor
  · intro hsc
    rw [ctor_header sc a h _ _ _ _ _ [] hs, if_neg (Ne.symm hsc)]
    refine ⟨_, rfl, rfl, ?_, ?_⟩
    · show decodeInt (h a).order 0x00 0x00 0x00 0x2A = _
      cases (h a).order <;> decide
    · simp only [Heap.store_same]
      rw [remaining_advance, hs]
      rfl
  · intro hsc
    rw [ctor_header sc a g _ _ _ _ _ [] gs, if_neg (Ne.symm hsc)]
    refine ⟨_, rfl, rfl, ?_, ?_⟩
    · show decodeInt (g a).order 0x00 0x00 0x00 0x07 = _
      cases (g a).order <;> decide
    · simp only [Heap.store_same]
      rw [remaining_advance, gs]
      rfl

/-- C8 amended, on a little-endian stream with sentinel 0: the table ids are
704643072 and 117440512. -/
theorem C8_scenarios_by_byte_order_witness :
    (∃ r, (RecoveryProtoMsg.RecoveryProtoMsg 0 (.addr 0)
        (Heap.const ⟨.littleEndian, [0x01, 0x00, 0x00, 0x00, 0x2A], 0⟩)).1 = .ok r ∧
      (r.msgType (RecoveryProtoMsg.RecoveryProtoMsg 0 (.addr 0)
        (Heap.const ⟨.littleEndian, [0x01, 0x00, 0x00, 0x00, 0x2A], 0⟩)).2).1 = 1 ∧
      (r.tableId (RecoveryProtoMsg.RecoveryProtoMsg 0 (.addr 0)
        (Heap.const ⟨.littleEndian, [0x01, 0x00, 0x00, 0x00, 0x2A], 0⟩)).2).1 = 704643072 ∧
      ((RecoveryProtoMsg.RecoveryProtoMsg 0 (.addr 0)
        (Heap.const ⟨.littleEndian, [0x01, 0x00, 0x00, 0x00, 0x2A], 0⟩)).2 0).remaining = []) ∧
    (∃ r, (RecoveryProtoMsg.RecoveryProtoMsg 0 (.addr 0)
        (Heap.const ⟨.littleEndian, [0x02, 0x00, 0x00, 0x00, 0x07], 0⟩)).1 = .ok r ∧
      (r.msgType (RecoveryProtoMsg.RecoveryProtoMsg 0 (.addr 0)
        (Heap.const ⟨.littleEndian, [0x02, 0x00, 0x00, 0x00, 0x07], 0⟩)).2).1 = 2 ∧
      (r.tableId (RecoveryProtoMsg.RecoveryProtoMsg 0 (.addr 0)
        (Heap.const ⟨.littleEndian, [0x02, 0x00, 0x00, 0x00, 0x07], 0⟩)).2).1 = 117440512 ∧
      ((RecoveryProtoMsg.RecoveryProtoMsg 0 (.addr 0)
        (Heap.const ⟨.littleEndian, [0x02, 0x00, 0x00, 0x00, 0x07], 0⟩)).2 0).remaining = []) :=
  ⟨(C8_scenarios_by_byte_order 0 0
      (Heap.const ⟨.littleEndian, [0x01, 0x00, 0x00, 0x00, 0x2A], 0⟩)
      (Heap.const ⟨.littleEndian, [0x02, 0x00, 0x00, 0x00, 0x07], 0⟩) rfl rfl).1 (by decide),
    (C8_scenarios_by_byte_order 0 0
      (Heap.const ⟨.littleEndian, [0x01, 0x00, 0x00, 0x00, 0x2A], 0⟩)
      (Heap.const ⟨.littleEndian, [0x02, 0x00, 0x00, 0x00, 0x07], 0⟩) rfl rfl).2 (by decide)⟩

/-- The value of `toInt32` is the 32-bit two's-complement reading of its
argument: congruent to it modulo `2^32` and within the `int32_t` range. -/
theorem toInt32_spec (n : Nat) :
    (toInt32 n - (n : Int)) % 4294967296 = 0 ∧
      -2147483648 ≤ toInt32 n ∧ toInt32 n < 2147483648 := by
  unfold toInt32
  split <;> omega

/-- C9: on a little-endian stream, for every type byte that is not the
sentinel, `tableId()` is the signed two's-complement 32-bit value of the four
bytes after the type byte, least significant byte first: it is congruent modulo
`2^32` to `b0 + 2^8 b1 + 2^16 b2 + 2^24 b3` and lies in the `int32_t` range. At
the extremes, with 3 not the sentinel, `[0x03,0xFF,0xFF,0xFF,0x7F]` gives
`msgType() == 3` and `tableId() == 2147483647`, and `[0x03,0x00,0x00,0x00,0x80]`
gives `tableId() == -2147483648`. -/
theorem C9_table_id_is_signed_little_endian (sc : RecoveryMsgType) (a : Nat) (h : Heap)
    (hle : (h a).order = .littleEndian) :
    (∀ (t b0 b1 b2 b3 : Byte) (rest : List Byte), t ≠ sc →
      (h a).remaining = t :: b0 :: b1 :: b2 :: b3 :: rest →
      ∃ r, (RecoveryProtoMsg.RecoveryProtoMsg sc (.addr a) h).1 = .ok r ∧
        (r.msgType (RecoveryProtoMsg.RecoveryProtoMsg sc (.addr a) h).2).1 = t ∧
        ((r.tableId (RecoveryProtoMsg.RecoveryProtoMsg sc (.addr a) h).2).1
          - ((b0.val + 256 * b1.val + 65536 * b2.val + 16777216 * b3.val : Nat) : Int))
            % 4294967296 = 0 ∧
        -2147483648 ≤ (r.tableId (RecoveryProtoMsg.RecoveryProtoMsg sc (.addr a) h).2).1 ∧
        (r.tableId (RecoveryProtoMsg.RecoveryProtoMsg sc (.addr a) h).2).1 < 2147483648) ∧
    (sc ≠ 3 → (h a).remaining = [0x03, 0xFF, 0xFF, 0xFF, 0x7F] →
      ∃ r, (RecoveryProtoMsg.RecoveryProtoMsg sc (.addr a) h).1 = .ok r ∧
        (r.msgType (RecoveryProtoMsg.RecoveryProtoMsg sc (.addr a) h).2).1 = 3 ∧
        (r.tableId (RecoveryProtoMsg.RecoveryProtoMsg sc (.addr a) h).2).1 = 2147483647) ∧
    (sc ≠ 3 → (h a).remaining = [0x03, 0x00, 0x00, 0x00, 0x80] →
      ∃ r, (RecoveryProtoMsg.RecoveryProtoMsg sc (.addr a) h).1 = .ok r ∧
        (r.msgType (RecoveryProtoMsg.RecoveryProtoMsg sc (.addr a) h).2).1 = 3 ∧
        (r.tableId (RecoveryProtoMsg.RecoveryProtoMsg sc (.addr a) h).2).1 = -2147483648) := by
  refine ⟨?_, ?_, ?_⟩
  · intro t b0 b1 b2 b3 rest ht hs
    rw [ctor_header sc a h t b0 b1 b2 b3 rest hs, if_neg ht, hle]
    exact ⟨_, rfl, rfl,
      toInt32_spec (b0.val + 256 * b1.val + 65536 * b2.val + 16777216 * b3.val)⟩
  · intro hsc hs
    have hv : decodeInt .littleEndian 0xFF 0xFF 0xFF 0x7F = (2147483647 : Int) := by decide
    rw [ctor_header sc a h _ _ _ _ _ [] hs, if_neg (Ne.symm hsc), hle]
    exact ⟨_, rfl, rfl, hv⟩
  · intro hsc hs
    have hv : decodeInt .littleEndian 0x00 0x00 0x00 0x80 = (-2147483648 : Int) := by decide
    rw [ctor_header sc a h _ _ _ _ _ [] hs, if_neg (Ne.symm hsc), hle]
    exact ⟨_, rfl, rfl, hv⟩

/-- C9 on little-endian streams with sentinel 1: the two extreme frames. -/
theorem C9_table_id_is_signed_little_endian_witness :
    (∃ r, (RecoveryProtoMsg.RecoveryProtoMsg 1 (.addr 0)
        (Heap.const ⟨.littleEndian, [0x03, 0xFF, 0xFF, 0xFF, 0x7F], 0⟩)).1 = .ok r ∧
      (r.msgType (RecoveryProtoMsg.RecoveryProtoMsg 1 (.addr 0)
        (Heap.const ⟨.littleEndian, [0x03, 0xFF, 0xFF, 0xFF, 0x7F], 0⟩)).2).1 = 3 ∧
      (r.tableId (RecoveryProtoMsg.RecoveryProtoMsg 1 (.addr 0)
        (Heap.const ⟨.littleEndian, [0x03, 0xFF, 0xFF, 0xFF, 0x7F], 0⟩)).2).1 = 2147483647) ∧
    (∃ r, (RecoveryProtoMsg.RecoveryProtoMsg 1 (.addr 0)
        (Heap.const ⟨.littleEndian, [0x03, 0x00, 0x00, 0x00, 0x80], 0⟩)).1 = .ok r ∧
      (r.msgType (RecoveryProtoMsg.RecoveryProtoMsg 1 (.addr 0)
        (Heap.const ⟨.littleEndian, [0x03, 0x00, 0x00, 0x00, 0x80], 0⟩)).2).1 = 3 ∧
      (r.tableId (RecoveryProtoMsg.RecoveryProtoMsg 1 (.addr 0)
        (Heap.const ⟨.littleEndian, [0x03, 0x00, 0x00, 0x00, 0x80], 0⟩)).2).1 = -2147483648) :=
  ⟨(C9_table_id_is_signed_little_endian 1 0
      (Heap.const ⟨.littleEndian, [0x03, 0xFF, 0xFF, 0xFF, 0x7F], 0⟩) rfl).2.1 (by decide) rfl,
    (C9_table_id_is_signed_little_endian 1 0
      (Heap.const ⟨.littleEndian, [0x03, 0x00, 0x00, 0x00, 0x80], 0⟩) rfl).2.2 (by decide) rfl⟩

/-- C10: for every non-null stream with fewer than five bytes left the
constructor ends with no reader but with the stream's own short-read failure,
unchanged: the one `readByte` raises when nothing is left, and otherwise the one
`readInt` raises after the type byte has been read. The fault is never one of
the reader's two assertions. -/
theorem C10_short_read_propagates (sc : RecoveryMsgType) (a : Nat) (h : Heap)
    (hlt : (h a).remaining.length < 5) :
    ∃ e, (RecoveryProtoMsg.RecoveryProtoMsg sc (.addr a) h).1 = .error (.stream e) ∧
      (((h a).remaining = [] ∧ (h a).readByte = .error e) ∨
        ((h a).remaining ≠ [] ∧
          ∃ b s, (h a).readByte = .ok (b, s) ∧ s.readInt = .error e)) ∧
      (RecoveryProtoMsg.RecoveryProtoMsg sc (.addr a) h).1 ≠ .error .nullStream ∧
      (RecoveryProtoMsg.RecoveryProtoMsg sc (.addr a) h).1 ≠ .error .unexpectedSentinel := by
  rcases remaining_cases (h a).remaining with hs | ⟨t, rest, hs, hlen⟩ |
    ⟨t, b0, b1, b2, b3, rest, hs⟩
  · rw [ctor_empty sc a h hs]
    refine ⟨_, rfl, Or.inl ⟨hs, readByte_nil _ hs⟩, ?_, ?_⟩ <;> intro hc <;> cases hc
  · rw [ctor_short sc a h t rest hs hlen]
    have hrem : ({ h a with position := (h a).position + 1 } :
        ReferenceSerializeInput).remaining = rest := by
      rw [remaining_advance, hs]; rfl
    have hint := readInt_short { h a with position := (h a).position + 1 }
      (by rw [hrem]; exact hlen)
    rw [hrem] at hint
    refine ⟨_, rfl, Or.inr ⟨?_, _, _, readByte_cons _ _ _ hs, hint⟩, ?_, ?_⟩
    · rw [hs]; exact List.cons_ne_nil _ _
    · intro hc; cases hc
    · intro hc; cases hc
  · rw [hs] at hlt
    simp at hlt
    omega

/-- C10 on a stream of three bytes that starts with the sentinel 1: `readInt`
fails for want of two bytes, and that failure is the outcome. -/
theorem C10_short_read_propagates_witness :
    ∃ e, (RecoveryProtoMsg.RecoveryProtoMsg 1 (.addr 0)
        (Heap.const ⟨.littleEndian, [1, 0, 0], 0⟩)).1 = .error (.stream e) ∧
      (((Heap.const ⟨.littleEndian, [1, 0, 0], 0⟩ 0).remaining = [] ∧
          (Heap.const ⟨.littleEndian, [1, 0, 0], 0⟩ 0).readByte = .error e) ∨
        ((Heap.const ⟨.littleEndian, [1, 0, 0], 0⟩ 0).remaining ≠ [] ∧
          ∃ b s, (Heap.const ⟨.littleEndian, [1, 0, 0], 0⟩ 0).readByte = .ok (b, s) ∧
            s.readInt = .error e)) ∧
      (RecoveryProtoMsg.RecoveryProtoMsg 1 (.addr 0)
        (Heap.const ⟨.littleEndian, [1, 0, 0], 0⟩)).1 ≠ .error .nullStream ∧
      (RecoveryProtoMsg.RecoveryProtoMsg 1 (.addr 0)
        (Heap.const ⟨.littleEndian, [1, 0, 0], 0⟩)).1 ≠ .error .unexpectedSentinel :=
  C10_short_read_propagates 1 0 (Heap.const ⟨.littleEndian, [1, 0, 0], 0⟩) (by decide)

/-- C11: the constructor compares the type byte with `SCAN_COMPLETE` and with
nothing else. On a stream with at least five bytes left whose first byte is
`t`, construction ends with a reader exactly when `t` is not the sentinel;
then `msgType()` is `t` itself, whichever of the 256 byte values it is, so also
when it names no defined `RecoveryMsgType`. -/
theorem C11_unknown_types_pass_through (sc t : RecoveryMsgType) (a : Nat) (h : Heap)
    (h5 : 5 ≤ (h a).remaining.length) (hfirst : (h a).remaining.head? = some t) :
    (t ≠ sc →
      ∃ r, (RecoveryProtoMsg.RecoveryProtoMsg sc (.addr a) h).1 = .ok r ∧
        (r.msgType (RecoveryProtoMsg.RecoveryProtoMsg sc (.addr a) h).2).1 = t) ∧
    ((∃ r, (RecoveryProtoMsg.RecoveryProtoMsg sc (.addr a) h).1 = .ok r) ↔ t ≠ sc) := by
  obtain ⟨t1, b0, b1, b2, b3, rest, hs⟩ := header_of_five_le _ h5
  have ht : t1 = t := by
    rw [hs] at hfirst
    simpa using hfirst
  rw [ht] at hs
  rw [ctor_header sc a h t b0 b1 b2 b3 rest hs]
  by_cases htsc : t = sc
  · rw [if_pos htsc]
    refine ⟨fun hne => absurd htsc hne, ?_⟩
    constructor
    · rintro ⟨r, hr⟩
      cases hr
    · intro hne
      exact absurd htsc hne
  · rw [if_neg htsc]
    exact ⟨fun _ => ⟨_, rfl, rfl⟩, fun _ => htsc, fun _ => ⟨_, rfl⟩⟩

/-- C11 on a frame whose type byte is `0xEE`, with sentinel 1: a reader is
built and `msgType()` is `0xEE`. -/
theorem C11_unknown_types_pass_through_witness :
    ∃ r, (RecoveryProtoMsg.RecoveryProtoMsg 1 (.addr 0)
        (Heap.const ⟨.bigEndian, [0xEE, 0, 0, 0, 7], 0⟩)).1 = .ok r ∧
      (r.msgType (RecoveryProtoMsg.RecoveryProtoMsg 1 (.addr 0)
        (Heap.const ⟨.bigEndian, [0xEE, 0, 0, 0, 7], 0⟩)).2).1 = 0xEE :=
  (C11_unknown_types_pass_through 1 0xEE 0 (Heap.const ⟨.bigEndian, [0xEE, 0, 0, 0, 7], 0⟩)
    (by decide) (by decide)).1 (by decide)

/-- C12: rejection of the sentinel is not atomic for the cursor. On every
stream with at least five bytes left whose first byte is the `SCAN_COMPLETE`
discriminator, the run ends in the failure of the sentinel assertion, and in
the heap at that point the cursor stands five bytes past where it started: both
header fields were read before the check, and the stream is not as it was. -/
theorem C12_sentinel_rejected_after_reads (sc : RecoveryMsgType) (a : Nat) (h : Heap)
    (h5 : 5 ≤ (h a).remaining.length) (hfirst : (h a).remaining.head? = some sc) :
    (RecoveryProtoMsg.RecoveryProtoMsg sc (.addr a) h).1 = .error .unexpectedSentinel ∧
    ((RecoveryProtoMsg.RecoveryProtoMsg sc (.addr a) h).2 a).position = (h a).position + 5 ∧
    ((RecoveryProtoMsg.RecoveryProtoMsg sc (.addr a) h).2 a).remaining
      = (h a).remaining.drop 5 ∧
    (RecoveryProtoMsg.RecoveryProtoMsg sc (.addr a) h).2 a ≠ h a := by
  obtain ⟨t, b0, b1, b2, b3, rest, hs⟩ := header_of_five_le _ h5
  have ht : t = sc := by
    rw [hs] at hfirst
    simpa using hfirst
  rw [ctor_header sc a h t b0 b1 b2 b3 rest hs, if_pos ht]
  refine ⟨rfl, ?_, ?_, ?_⟩
  · simp only [Heap.store_same]
  · simp only [Heap.store_same]
    exact remaining_advance (h a) 5
  · simp only [Heap.store_same]
    intro hc
    have hpos := congrArg ReferenceSerializeInput.position hc
    simp at hpos

/-- C12 on the frame `[0x01,0x00,0x00,0x00,0x2A,0xAA]` with sentinel 1: the
sentinel assertion fails and the cursor is at 5, with `[0xAA]` left. -/
theorem C12_sentinel_rejected_after_reads_witness :
    (RecoveryProtoMsg.RecoveryProtoMsg 1 (.addr 0)
        (Heap.const ⟨.littleEndian, [0x01, 0x00, 0x00, 0x00, 0x2A, 0xAA], 0⟩)).1
      = .error .unexpectedSentinel ∧
    ((RecoveryProtoMsg.RecoveryProtoMsg 1 (.addr 0)
        (Heap.const ⟨.littleEndian, [0x01, 0x00, 0x00, 0x00, 0x2A, 0xAA], 0⟩)).2 0).position
      = 5 ∧
    ((RecoveryProtoMsg.RecoveryProtoMsg 1 (.addr 0)
        (Heap.const ⟨.littleEndian, [0x01, 0x00, 0x00, 0x00, 0x2A, 0xAA], 0⟩)).2 0).remaining
      = [0xAA] :=
  have w := C12_sentinel_rejected_after_reads 1 0
    (Heap.const ⟨.littleEndian, [0x01, 0x00, 0x00, 0x00, 0x2A, 0xAA], 0⟩)
    (by decide) (by decide)
  ⟨w.1, w.2.1, w.2.2.1⟩

/-- Two lists with the same first five elements are read alike by the
constructor: both empty, both the same one to four bytes, or both starting
with the same whole header. -/
theorem take_five_cases (l1 l2 : List Byte) (htake : l1.take 5 = l2.take 5) :
    (l1 = [] ∧ l2 = []) ∨
    (∃ t rest, l1 = t :: rest ∧ l2 = t :: rest ∧ rest.length < 4) ∨
    ∃ t b0 b1 b2 b3 r1 r2,
      l1 = t :: b0 :: b1 :: b2 :: b3 :: r1 ∧ l2 = t :: b0 :: b1 :: b2 :: b3 :: r2 := by
  rcases remaining_cases l1 with e1 | ⟨t, rest, e1, hlen⟩ | ⟨t, b0, b1, b2, b3, r1, e1⟩
  · left
    refine ⟨e1, ?_⟩
    rw [e1] at htake
    rcases List.take_eq_nil_iff.mp htake.symm with h0 | h0
    · cases h0
    · exact h0
  · right; left
    refine ⟨t, rest, e1, ?_, hlen⟩
    have hl1 : l1.length < 5 := by rw [e1]; simp; omega
    have ht1 : l1.take 5 = l1 := List.take_of_length_le (by omega)
    have hl2 : l2.length < 5 := by
      have hlen2 := congrArg List.length htake
      rw [ht1, List.length_take] at hlen2
      omega
    have ht2 : l2.take 5 = l2 := List.take_of_length_le (by omega)
    rw [ht1, ht2] at htake
    rw [← htake, e1]
  · right; right
    have hl2 : 5 ≤ l2.length := by
      have hlen2 := congrArg List.length htake
      rw [e1, List.length_take, List.length_take] at hlen2
      simp at hlen2
      omega
    obtain ⟨t2, c0, c1, c2, c3, r2, e2⟩ := header_of_five_le l2 hl2
    rw [e1, e2] at htake
    simp at htake
    obtain ⟨q, q0, q1, q2, q3⟩ := htake
    refine ⟨t, b0, b1, b2, b3, r1, r2, e1, ?_⟩
    rw [e2, q, q0, q1, q2, q3]

/-- C13: the outcome of construction depends only on the first five bytes left
in the stream. For two streams with the same `readInt` byte order, at any
addresses of any heaps, that agree on their first five remaining bytes and
differ in any way afterwards, construction with the same sentinel either ends
in the same fault on both or ends with a reader on both, and the two readers
have equal `msgType()` and equal `tableId()`. -/
theorem C13_outcome_from_first_five_bytes (sc : RecoveryMsgType) (a1 a2 : Nat) (h1 h2 : Heap)
    (hord : (h1 a1).order = (h2 a2).order)
    (htake : (h1 a1).remaining.take 5 = (h2 a2).remaining.take 5) :
    (∃ f, (RecoveryProtoMsg.RecoveryProtoMsg sc (.addr a1) h1).1 = .error f ∧
        (RecoveryProtoMsg.RecoveryProtoMsg sc (.addr a2) h2).1 = .error f) ∨
    (∃ r1 r2, (RecoveryProtoMsg.RecoveryProtoMsg sc (.addr a1) h1).1 = .ok r1 ∧
        (RecoveryProtoMsg.RecoveryProtoMsg sc (.addr a2) h2).1 = .ok r2 ∧
        (r1.msgType (RecoveryProtoMsg.RecoveryProtoMsg sc (.addr a1) h1).2).1
          = (r2.msgType (RecoveryProtoMsg.RecoveryProtoMsg sc (.addr a2) h2).2).1 ∧
        (r1.tableId (RecoveryProtoMsg.RecoveryProtoMsg sc (.addr a1) h1).2).1
          = (r2.tableId (RecoveryProtoMsg.RecoveryProtoMsg sc (.addr a2) h2).2).1) := by
  rcases take_five_cases _ _ htake with ⟨e1, e2⟩ | ⟨t, rest, e1, e2, hlen⟩ |
    ⟨t, b0, b1, b2, b3, r1, r2, e1, e2⟩
  · left
    rw [ctor_empty sc a1 h1 e1, ctor_empty sc a2 h2 e2]
    exact ⟨_, rfl, rfl⟩
  · left
    rw [ctor_short sc a1 h1 t rest e1 hlen, ctor_short sc a2 h2 t rest e2 hlen]
    exact ⟨_, rfl, rfl⟩
  · rw [ctor_header sc a1 h1 t b0 b1 b2 b3 r1 e1, ctor_header sc a2 h2 t b0 b1 b2 b3 r2 e2]
    by_cases htsc : t = sc
    · left
      rw [if_pos htsc, if_pos htsc]
      exact ⟨_, rfl, rfl⟩
    · right
      rw [if_neg htsc, if_neg htsc]
      refine ⟨_, _, rfl, rfl, rfl, ?_⟩
      show decodeInt (h1 a1).order b0 b1 b2 b3 = decodeInt (h2 a2).order b0 b1 b2 b3
      rw [hord]

/-- C13 on two big-endian streams at different addresses of different heaps,
with sentinel 1, that share the header `[0x02,0x00,0x00,0x00,0x07]` and go on
differently: both give a reader, of type 2 and table id 7. -/
theorem C13_outcome_from_first_five_bytes_witness :
    ∃ r1 r2, (RecoveryProtoMsg.RecoveryProtoMsg 1 (.addr 0)
          (Heap.const ⟨.bigEndian, [0x02, 0x00, 0x00, 0x00, 0x07, 0xAA], 0⟩)).1 = .ok r1 ∧
        (RecoveryProtoMsg.RecoveryProtoMsg 1 (.addr 4)
          (Heap.const ⟨.bigEndian, [0x02, 0x00, 0x00, 0x00, 0x07, 0xBB, 0xCC], 0⟩)).1 = .ok r2 ∧
        (r1.msgType (RecoveryProtoMsg.RecoveryProtoMsg 1 (.addr 0)
          (Heap.const ⟨.bigEndian, [0x02, 0x00, 0x00, 0x00, 0x07, 0xAA], 0⟩)).2).1
          = (r2.msgType (RecoveryProtoMsg.RecoveryProtoMsg 1 (.addr 4)
          (Heap.const ⟨.bigEndian, [0x02, 0x00, 0x00, 0x00, 0x07, 0xBB, 0xCC], 0⟩)).2).1 ∧
        (r1.tableId (RecoveryProtoMsg.RecoveryProtoMsg 1 (.addr 0)
          (Heap.const ⟨.bigEndian, [0x02, 0x00, 0x00, 0x00, 0x07, 0xAA], 0⟩)).2).1
          = (r2.tableId (RecoveryProtoMsg.RecoveryProtoMsg 1 (.addr 4)
          (Heap.const ⟨.bigEndian, [0x02, 0x00, 0x00, 0x00, 0x07, 0xBB, 0xCC], 0⟩)).2).1 :=
  (C13_outcome_from_first_five_bytes 1 0 4
    (Heap.const ⟨.bigEndian, [0x02, 0x00, 0x00, 0x00, 0x07, 0xAA], 0⟩)
    (Heap.const ⟨.bigEndian, [0x02, 0x00, 0x00, 0x00, 0x07, 0xBB, 0xCC], 0⟩)
    rfl (by decide)).resolve_left (by
      rintro ⟨f, hf, _⟩
      cases hf)

end voltdb
